import Mathlib

set_option maxRecDepth 4000

/-!
Verification development for `src/anemoi/datasets/schema.py` of the
`anemoi-datasets` repository: a shallow embedding of the pydantic-based
recipe-schema builder (`init`), the validation entry point (`validate`) and the
normalization stub (`expand`), together with proofs about the discriminated
unions and the closed/open-schema behaviour of the declared models.
-/

namespace AnemoiSchema

/-- JSON-like values: the shallow embedding of the Python dictionaries handed to
`validate` and `expand` in `schema.py`.  Objects keep their fields in insertion
order, as Python dicts do.  `pyobj` stands for an opaque Python object carrying
only its printed form; it is used for the defaults of the deprecated `Recipe`
fields, whose declared default is a `typing.Annotated` instance rather than a
value of the declared type. -/
inductive Value where
  | null
  | bool (b : Bool)
  | int (n : Int)
  | str (s : String)
  | list (elts : List Value)
  | obj (fields : List (String × Value))
  | pyobj (descr : String)

/-- First-match lookup in an association list keyed by strings, the embedding of
a Python dict access `d[k]` / `d.get(k)` (dict keys are unique in Python, so
first-match agrees with dict semantics). -/
def alookup {α : Type} (fs : List (String × α)) (k : String) : Option α :=
  match fs with
  | [] => none
  | (k', v) :: rest => if k' = k then some v else alookup rest k

/-- Membership test for a key in an object's field list: Python `k in d`. -/
def hasKey (fs : List (String × Value)) (k : String) : Bool :=
  fs.any (fun kv => kv.1 == k)

/-- One structured line of a pydantic `ValidationError`: the location path of
the offending field and the kind of error (`missing`, `extra_forbidden`,
`string_type`, `union_tag_invalid`, ...). -/
structure VErr where
  loc : List String
  kind : String

/-- Prefix a validation error location with the enclosing field name, as
pydantic does when it merges the errors of a nested model into its parent. -/
def VErr.push (k : String) (e : VErr) : VErr :=
  { e with loc := k :: e.loc }

/-- Python-level failure outcomes of running the validator.  `validationError`
is pydantic's `ValidationError`, the only exception `validate` catches; the
other constructors stand for ordinary Python exceptions (`IndexError` from
`list(input.keys())[0]` on an empty dict, `AttributeError` from `.keys()` on a
non-dict, `TypeError` from `model(**config)` on a non-mapping or from `in` on a
non-container), which propagate to the caller. -/
inductive PyErr where
  | validationError (errs : List VErr)
  | indexError
  | attributeError
  | typeError (msg : String)

/-- Description of one declared pydantic model field: its name, whether it is
required (a `...` default in the source), the validator for a supplied value
(returning the normalized value in `model_dump` form), and the value that the
field takes in `model_dump` when the document omits it. -/
structure FieldSpec where
  key : String
  required : Bool
  validator : Value → Except PyErr Value
  dflt : Value

/-- Turn the outcome of a field's validator into that field's contribution:
a success contributes its normalized value; a `ValidationError` is caught and
its lines prefixed with the field name, the default standing in for the value;
any other Python exception propagates. -/
def liftFieldErr (k : String) (dflt : Value) :
    Except PyErr Value → Except PyErr (List VErr × (String × Value))
  | .ok y => .ok ([], (k, y))
  | .error (.validationError es) => .ok (es.map (VErr.push k), (k, dflt))
  | .error .indexError => .error .indexError
  | .error .attributeError => .error .attributeError
  | .error (.typeError msg) => .error (.typeError msg)

/-- Validate one declared field against the supplied document fields.  A missing
required field yields a `missing` error; a failing supplied value contributes
its errors prefixed with the field name; a non-`ValidationError` Python
exception raised while validating the value aborts validation and propagates.
The returned key/value pair is the field's entry of the normalized dump (the
default stands in when the field errored, but in that case the accumulated
error list is nonempty, so the stand-in never reaches a successful result). -/
def runField (fs : List (String × Value)) (spec : FieldSpec) :
    Except PyErr (List VErr × (String × Value)) :=
  match alookup fs spec.key with
  | none =>
    if spec.required then .ok ([⟨[spec.key], "missing"⟩], (spec.key, spec.dflt))
    else .ok ([], (spec.key, spec.dflt))
  | some x => liftFieldErr spec.key spec.dflt (spec.validator x)

/-- Validate every declared field in declaration order, accumulating validation
errors and building the normalized field list, while letting non-validation
Python exceptions abort immediately, as pydantic does. -/
def runFields (specs : List FieldSpec) (fs : List (String × Value)) :
    Except PyErr (List VErr × List (String × Value)) :=
  match specs with
  | [] => .ok ([], [])
  | spec :: rest =>
    match runField fs spec with
    | .error e => .error e
    | .ok (es, kv) =>
      match runFields rest fs with
      | .error e => .error e
      | .ok (es2, kvs) => .ok (es ++ es2, kv :: kvs)

/-- The `extra_forbidden` errors of a model whose `Config` declares
`extra = "forbid"`: one error per supplied field that no declared field names. -/
def extraErrors (specs : List FieldSpec) (fs : List (String × Value)) : List VErr :=
  (fs.filter (fun kv => ! specs.any (fun spec => spec.key == kv.1))).map
    (fun kv => ⟨[kv.1], "extra_forbidden"⟩)

/-- The extra-key errors a model contributes: those of `extraErrors` when its
`Config` sets `extra = "forbid"`, none otherwise (pydantic's default policy of
ignoring unknown keys). -/
def extraOf (forbidExtra : Bool) (specs : List FieldSpec)
    (fs : List (String × Value)) : List VErr :=
  if forbidExtra then extraErrors specs fs else []

/-- Validation of a pydantic `BaseModel` described by its field specs:
the input must be a mapping; unknown keys are rejected when the model's
`Config` sets `extra = "forbid"` and silently ignored otherwise (pydantic's
default, used by `Step`, `Common` and the combinator models); the result of a
successful validation is the model's `model_dump`. -/
def modelValidate (specs : List FieldSpec) (forbidExtra : Bool) (v : Value) :
    Except PyErr Value :=
  match v with
  | .obj fs =>
    match runFields specs fs with
    | .error e => .error e
    | .ok (es, out) =>
      if (extraOf forbidExtra specs fs ++ es).isEmpty then .ok (.obj out)
      else .error (.validationError (extraOf forbidExtra specs fs ++ es))
  | _ => .error (.validationError [⟨[], "model_type"⟩])

/-! ### Field-level validators for the statically declared models -/

/-- A single-line type error, located at the value itself. -/
def typeErr (kind : String) : Except PyErr Value :=
  .error (.validationError [⟨[], kind⟩])

/-- Validator of a `str`-annotated field: only strings are accepted (pydantic
does not coerce to `str`; in particular an explicit `None` is rejected even
when the declared default is `None`). -/
def vStr : Value → Except PyErr Value
  | .str s => .ok (.str s)
  | _ => typeErr "string_type"

/-- Validator of a `bool`-annotated field. -/
def vBool : Value → Except PyErr Value
  | .bool b => .ok (.bool b)
  | _ => typeErr "bool_type"

/-- Validator of an `int`-annotated field. -/
def vInt : Value → Except PyErr Value
  | .int n => .ok (.int n)
  | _ => typeErr "int_type"

/-- Validator of a `dict`-annotated field. -/
def vDict : Value → Except PyErr Value
  | .obj fs => .ok (.obj fs)
  | _ => typeErr "dict_type"

/-- Validator of a `datetime.datetime`-annotated field.  The ISO-8601 parse
performed by pydantic is abstracted: a string is accepted and represented by
its source text (which is also how it reaches the `json.dumps(..., default=str)`
dump), and an integer timestamp is accepted as pydantic's lax mode does. -/
def vDatetime : Value → Except PyErr Value
  | .str s => .ok (.str s)
  | .int n => .ok (.int n)
  | _ => typeErr "datetime_type"

/-- Validator of a `Union[datetime.datetime, int]` field (`statistics_end`,
`Statistics.end`). -/
def vDatetimeOrInt : Value → Except PyErr Value
  | .str s => .ok (.str s)
  | .int n => .ok (.int n)
  | _ => typeErr "datetime_or_int"

/-- Validator of a `Union[dict, str]` field (`Output.statistics`). -/
def vDictOrStr : Value → Except PyErr Value
  | .obj fs => .ok (.obj fs)
  | .str s => .ok (.str s)
  | _ => typeErr "dict_or_str"

/-- Validator of a `Union[int, GroupByEnum]` field.  `GroupByEnum` is the
str-valued enum with members `monthly`, `daily`, `weekly`, `MMDD`; a validated
member serializes as its string value in the JSON dump, so it is represented by
that string. -/
def vGroupBy : Value → Except PyErr Value
  | .int n => .ok (.int n)
  | .str s =>
    if s = "monthly" ∨ s = "daily" ∨ s = "weekly" ∨ s = "MMDD" then .ok (.str s)
    else typeErr "enum"
  | _ => typeErr "int_or_enum"

/-- Validate every element of a `list[...]` field, accumulating per-index
validation errors and propagating non-validation Python exceptions. -/
def listItems (f : Value → Except PyErr Value) :
    Nat → List Value → Except PyErr (List VErr × List Value)
  | _, [] => .ok ([], [])
  | i, x :: xs =>
    match f x with
    | .error (.validationError es) =>
      match listItems f (i + 1) xs with
      | .error e => .error e
      | .ok (es2, ys) => .ok (es.map (VErr.push (toString i)) ++ es2, ys)
    | .error e => .error e
    | .ok y =>
      match listItems f (i + 1) xs with
      | .error e => .error e
      | .ok (es2, ys) => .ok (es2, y :: ys)

/-- Validator of a `list[...]`-annotated field, given the element validator. -/
def listOf (f : Value → Except PyErr Value) : Value → Except PyErr Value
  | .list xs =>
    match listItems f 0 xs with
    | .error e => .error e
    | .ok (es, ys) =>
      if es.isEmpty then .ok (.list ys) else .error (.validationError es)
  | _ => typeErr "list_type"

/-- Validator of a `list[str]` field. -/
def vListStr : Value → Except PyErr Value := listOf vStr

/-- Validator of a `list[datetime.datetime]` field. -/
def vListDatetime : Value → Except PyErr Value := listOf vDatetime

/-- Read a nonempty all-digit character sequence as a natural number. -/
def parseDigits (cs : List Char) : Option Nat :=
  match cs with
  | [] => none
  | _ :: _ =>
    if cs.all Char.isDigit then
      some (cs.foldl (fun acc c => acc * 10 + (c.toNat - 48)) 0)
    else none

/-- Modelled from the spec: `frequency_to_timedelta` from `anemoi.utils.dates`
is imported by `schema.py` but its source is not under `src/`; the spec
describes the `Interval.frequency` field as "a duration, parsed from a flexible
string/number format".  An integer is a count of hours; a string of digits is a
count of hours; a string of digits followed by one of the unit letters `h`,
`d`, `m`, `s` is a count of that unit; anything else raises `ValueError`, which
pydantic converts into a validation failure of the field (the function runs as
a `mode="before"` field validator).  The resulting `datetime.timedelta` is
represented by its total number of seconds. -/
def frequency_to_timedelta (v : Value) : Except PyErr Value :=
  match v with
  | .int n => .ok (.int (n * 3600))
  | .str s =>
    match parseDigits s.data with
    | some n => .ok (.int ((n : Int) * 3600))
    | none =>
      match s.data.getLast?, parseDigits s.data.dropLast with
      | some u, some n =>
        if u = 'h' then .ok (.int ((n : Int) * 3600))
        else if u = 'd' then .ok (.int ((n : Int) * 86400))
        else if u = 'm' then .ok (.int ((n : Int) * 60))
        else if u = 's' then .ok (.int (n : Int))
        else typeErr "value_error"
      | _, _ => typeErr "value_error"
  | _ => typeErr "value_error"

/-- Validator of `Interval.frequency`: the `parse_frequency` field validator
(mode `"before"`) feeds the raw value through `frequency_to_timedelta`, and the
result is the field's `timedelta` value. -/
def vFrequency : Value → Except PyErr Value := frequency_to_timedelta

/-! ### The statically declared models of `schema.py` -/

/-- Fields of the `Dates` base model: `missing: list[datetime.datetime] = None`
and the deprecated `group_by: Union[int, GroupByEnum] = "monthly"`.  Its
`Config` sets `extra = "forbid"`, inherited by `Interval` and `DateList`. -/
def DatesBaseSpecs : List FieldSpec :=
  [⟨"missing", false, vListDatetime, .null⟩,
   ⟨"group_by", false, vGroupBy, .str "monthly"⟩]

/-- Fields of `Interval(Dates)`: `start`, `end` (datetimes defaulting to
`None`) and `frequency` (a timedelta parsed by `parse_frequency`). -/
def IntervalSpecs : List FieldSpec :=
  DatesBaseSpecs ++
  [⟨"start", false, vDatetime, .null⟩,
   ⟨"end", false, vDatetime, .null⟩,
   ⟨"frequency", false, vFrequency, .null⟩]

/-- Fields of `DateList(Dates)`: `values: list[datetime.datetime] = None`. -/
def DateListSpecs : List FieldSpec :=
  DatesBaseSpecs ++ [⟨"values", false, vListDatetime, .null⟩]

/-- Validation against the `Interval` model (closed schema). -/
def validateInterval : Value → Except PyErr Value :=
  modelValidate IntervalSpecs true

/-- Validation against the `DateList` model (closed schema). -/
def validateDateList : Value → Except PyErr Value :=
  modelValidate DateListSpecs true

/-- Whether the second character sequence starts with the first. -/
def listStartsWith : List Char → List Char → Bool
  | [], _ => true
  | _ :: _, [] => false
  | p :: ps, c :: cs => p == c && listStartsWith ps cs

/-- Whether a character sequence occurs contiguously inside another (the
Python substring test `pat in s`). -/
def listHasInfix (pat : List Char) : List Char → Bool
  | [] => pat.isEmpty
  | c :: cs => listStartsWith pat (c :: cs) || listHasInfix pat cs

/-- The `_dates_discriminator` function of `schema.py`:
`return "values" if "values" in input else "interval"`.  The Python membership
test `"values" in input` works on any container: for a dict it checks the keys,
for a list it checks the elements, for a string it is a substring test; on a
non-container it raises `TypeError`, which propagates. -/
def dates_discriminator : Value → Except PyErr String
  | .obj fs => .ok (if hasKey fs "values" then "values" else "interval")
  | .list xs =>
    .ok (if xs.any (fun x => match x with | .str s => s == "values" | _ => false)
         then "values" else "interval")
  | .str s => .ok (if listHasInfix "values".data s.data then "values" else "interval")
  | _ => .error (.typeError "argument is not iterable")

/-- Dispatch of a `Union` annotated with `Tag`s and a callable `Discriminator`:
run the discriminator, look up the returned tag among the variant tags, and
validate with the chosen variant; a tag that names no variant is a
`union_tag_invalid` validation error, and an exception raised by the
discriminator propagates. -/
def unionDispatch (variants : List (String × (Value → Except PyErr Value)))
    (disc : Value → Except PyErr String) (v : Value) : Except PyErr Value :=
  match disc v with
  | .error e => .error e
  | .ok tag =>
    match alookup variants tag with
    | some f => f v
    | none => .error (.validationError [⟨[], "union_tag_invalid"⟩])

/-- The `Recipe.dates` discriminated union:
`Union[Annotated[Interval, Tag("interval")], Annotated[DateList, Tag("values")]]`
with `Discriminator(_dates_discriminator)`. -/
def validateDatesUnion : Value → Except PyErr Value :=
  unionDispatch [("interval", validateInterval), ("values", validateDateList)]
    dates_discriminator

/-! ### The dynamically built models of `init()` -/

/-- The declared input shape of a registered source or filter, as reported by
the external `function_schemas` registry: an opaque partial function from the
supplied value to its normalized form (`none` meaning the value fails that
shape's validation). -/
def SchemaFn : Type := Value → Option Value

/-- The snapshot of the external `function_schemas` plugin registry that
`init()` queries: the `"sources"` entries followed by the `"filters"` entries,
each a name paired with its optional declared input shape (`None` in the source
meaning the shape defaults to `dict`). -/
structure Registry where
  sources : List (String × Option SchemaFn)
  filters : List (String × Option SchemaFn)

/-- Validator of the single field of a dynamically created step model: the
declared shape when the registry supplies one, and `dict` otherwise
(`if schema is None: schema = dict`). -/
def schemaValidator : Option SchemaFn → Value → Except PyErr Value
  | none, v => vDict v
  | some f, v =>
    match f v with
    | some y => .ok y
    | none => typeErr "schema"

/-- The field specs of the model `create_model(name, **{name: (schema, ...)},
__base__=Step)` generated for one registered name: a single required field
named after the step.  `Step` declares no `Config`, so extra keys are ignored
(pydantic's default). -/
def stepSpecs (name : String) (sch : Option SchemaFn) : List FieldSpec :=
  [⟨name, true, schemaValidator sch, .null⟩]

/-- The tagged variants accumulated from the registry, sources first, then
filters — each `Annotated[model, Tag(name)]` in the `union` list of `init()`. -/
def stepVariants (reg : Registry) : List (String × (Value → Except PyErr Value)) :=
  (reg.sources ++ reg.filters).map
    (fun ns => (ns.1, modelValidate (stepSpecs ns.1 ns.2) false))

/-- The `_input_discriminator` closure of `init()`:
`return list(input.keys())[0]`.  On an empty dict the `[0]` subscript raises
`IndexError`; on a non-dict the `.keys()` attribute access raises
`AttributeError`; both propagate out of validation uncaught. -/
def input_discriminator : Value → Except PyErr String
  | .obj [] => .error .indexError
  | .obj ((k, _) :: _) => .ok k
  | _ => .error .attributeError

/-- The `simple_steps` union: all registry variants, discriminated by
`_input_discriminator`. -/
def simpleSteps (reg : Registry) : Value → Except PyErr Value :=
  unionDispatch (stepVariants reg) input_discriminator

/-- The `Pipe` model: `create_model("Pipe", pipe=(list[simple_steps], ...))`. -/
def pipeSpecs (reg : Registry) : List FieldSpec :=
  [⟨"pipe", true, listOf (simpleSteps reg), .null⟩]

/-- Validation against the generated `Pipe` model. -/
def validatePipe (reg : Registry) : Value → Except PyErr Value :=
  modelValidate (pipeSpecs reg) false

/-- The `simple_steps_and_pipe` union: registry variants plus
`Annotated[Pipe, Tag("pipe")]`. -/
def stepsAndPipeVariants (reg : Registry) :
    List (String × (Value → Except PyErr Value)) :=
  stepVariants reg ++ [("pipe", validatePipe reg)]

/-- Dispatch of the `simple_steps_and_pipe` union. -/
def stepsAndPipe (reg : Registry) : Value → Except PyErr Value :=
  unionDispatch (stepsAndPipeVariants reg) input_discriminator

/-- The dates-join combinator model built inside `init()`:
`create_model("Dates", dates=(Interval, ...), join=(list[simple_steps_and_pipe], ...))`. -/
def datesCombSpecs (reg : Registry) : List FieldSpec :=
  [⟨"dates", true, validateInterval, .null⟩,
   ⟨"join", true, listOf (stepsAndPipe reg), .null⟩]

/-- Validation against the generated dates-join combinator model. -/
def validateDatesComb (reg : Registry) : Value → Except PyErr Value :=
  modelValidate (datesCombSpecs reg) false

/-- The `simple_steps_and_dates` union: registry variants, `pipe`, and the
dates-join combinator under `Tag("dates")` (the duplicate
`Annotated[Dates, Tag("dates")]` entry of line 140 collapses in
`typing.Union`). -/
def stepsAndDatesVariants (reg : Registry) :
    List (String × (Value → Except PyErr Value)) :=
  stepsAndPipeVariants reg ++ [("dates", validateDatesComb reg)]

/-- Dispatch of the `simple_steps_and_dates` union. -/
def stepsAndDates (reg : Registry) : Value → Except PyErr Value :=
  unionDispatch (stepsAndDatesVariants reg) input_discriminator

/-- The `Concat` model: `create_model("Concat", concat=(list[simple_steps_and_dates], ...))`. -/
def concatSpecs (reg : Registry) : List FieldSpec :=
  [⟨"concat", true, listOf (stepsAndDates reg), .null⟩]

/-- Validation against the generated `Concat` model. -/
def validateConcat (reg : Registry) : Value → Except PyErr Value :=
  modelValidate (concatSpecs reg) false

/-- The `Join` model: `create_model("Join", join=(list[simple_steps_and_pipe], ...))`. -/
def joinSpecs (reg : Registry) : List FieldSpec :=
  [⟨"join", true, listOf (stepsAndPipe reg), .null⟩]

/-- Validation against the generated `Join` model. -/
def validateJoin (reg : Registry) : Value → Except PyErr Value :=
  modelValidate (joinSpecs reg) false

/-- The full variant list of the `input` field's union after `init()` has
extended it: registry variants, `pipe`, `dates`, `concat`, `join`, in the order
the source appends them. -/
def inputVariants (reg : Registry) : List (String × (Value → Except PyErr Value)) :=
  stepsAndDatesVariants reg ++
    [("concat", validateConcat reg), ("join", validateJoin reg)]

/-- The discriminated union of the `input` field of the final `Input` model. -/
def inputUnion (reg : Registry) : Value → Except PyErr Value :=
  unionDispatch (inputVariants reg) input_discriminator

/-! ### The static `Recipe` model and the final `Input` model -/

/-- The default of `Recipe.output`, the dump of the default instance
`Output()` with every field at its declared default. -/
def outputDefault : Value :=
  .obj [("statistics_end", .null), ("chunking", .null), ("dtype", .str "float32"),
        ("flatten_grid", .bool true), ("order_by", .null), ("remapping", .null),
        ("statistics", .null)]

/-- The default of `Recipe.build`, the dump of the default instance `Build()`. -/
def buildDefault : Value :=
  .obj [("group_by", .str "monthly"), ("use_grib_paramid", .bool false),
        ("variable_naming", .null)]

/-- The default of `Recipe.statistics`, the dump of the default instance
`Statistics()`. -/
def statisticsDefault : Value :=
  .obj [("end", .null), ("allow_nans", .list [])]

/-- Fields of the `Output` model (`extra = "forbid"`). -/
def OutputSpecs : List FieldSpec :=
  [⟨"statistics_end", false, vDatetimeOrInt, .null⟩,
   ⟨"chunking", false, vDict, .null⟩,
   ⟨"dtype", false, vStr, .str "float32"⟩,
   ⟨"flatten_grid", false, vBool, .bool true⟩,
   ⟨"order_by", false, vListStr, .null⟩,
   ⟨"remapping", false, vDict, .null⟩,
   ⟨"statistics", false, vDictOrStr, .null⟩]

/-- Validation against the `Output` model. -/
def validateOutput : Value → Except PyErr Value :=
  modelValidate OutputSpecs true

/-- Fields of the `Build` model (`extra = "forbid"`). -/
def BuildSpecs : List FieldSpec :=
  [⟨"group_by", false, vGroupBy, .str "monthly"⟩,
   ⟨"use_grib_paramid", false, vBool, .bool false⟩,
   ⟨"variable_naming", false, vStr, .null⟩]

/-- Validation against the `Build` model. -/
def validateBuild : Value → Except PyErr Value :=
  modelValidate BuildSpecs true

/-- Fields of the `Statistics` model (`extra = "forbid"`). -/
def StatisticsSpecs : List FieldSpec :=
  [⟨"end", false, vDatetimeOrInt, .null⟩,
   ⟨"allow_nans", false, vListStr, .list []⟩]

/-- Validation against the `Statistics` model. -/
def validateStatistics : Value → Except PyErr Value :=
  modelValidate StatisticsSpecs true

/-- Validation against the `Common` model: `class Common(BaseModel): pass`
declares no fields and no `Config`, so any mapping validates (extra keys are
ignored, pydantic's default) and dumps to the empty mapping. -/
def validateCommon : Value → Except PyErr Value :=
  modelValidate [] false

/-- Validator of `Recipe.aliases: Union[Common, list] = None`: a mapping
validates as `Common` (dumping to the empty mapping), a list is accepted as-is. -/
def vAliases : Value → Except PyErr Value
  | .obj _ => .ok (.obj [])
  | .list xs => .ok (.list xs)
  | _ => typeErr "union_common_or_list"

/-- The default of a deprecated `Recipe` field whose declared default in the
source is a `typing.Annotated[int, Field(deprecated=...)]` object rather than a
value of the declared type. -/
def deprecatedDefault (msg : String) : Value :=
  .pyobj ("Annotated[int, Field(deprecated=" ++ msg ++ ")]")

/-- The fields of the static `Recipe` base model, in declaration order.  Its
`Config` sets `extra = "forbid"`.  The commented-out `input` field of the class
body is absent here; `init()` adds a required `input` field in the derived
`Input` model. -/
def recipeSpecs : List FieldSpec :=
  [⟨"description", false, vStr, .null⟩,
   ⟨"name", false, vStr, .null⟩,
   ⟨"copyright", false, vStr,
     deprecatedDefault "This is deprecated. Set attribution instead"⟩,
   ⟨"licence", false, vStr, .str "unknown"⟩,
   ⟨"attribution", false, vStr, .str "unknown"⟩,
   ⟨"dates", true, validateDatesUnion, .null⟩,
   ⟨"output", false, validateOutput, outputDefault⟩,
   ⟨"build", false, validateBuild, buildDefault⟩,
   ⟨"statistics", false, validateStatistics, statisticsDefault⟩,
   ⟨"common", false, validateCommon, .null⟩,
   ⟨"sources", false, validateCommon, .null⟩,
   ⟨"purpose", false, vStr, deprecatedDefault "This is deprecated"⟩,
   ⟨"aliases", false, vAliases, .null⟩,
   ⟨"flatten_grid", false, vBool, .bool true⟩,
   ⟨"ensemble_dimension", false, vInt, .int 2⟩,
   ⟨"config_format_version", false, vInt, deprecatedDefault "This is deprecated"⟩,
   ⟨"status", false, vStr, deprecatedDefault "This is deprecated"⟩,
   ⟨"dataset_status", false, vStr, deprecatedDefault "This is deprecated"⟩]

/-- The fields of the `Input` model returned by `init()`:
`create_model("Input", input=(<discriminated union>, ...), __base__=Recipe)` —
the inherited `Recipe` fields first, then the required `input` field. -/
def inputSpecs (reg : Registry) : List FieldSpec :=
  recipeSpecs ++ [⟨"input", true, inputUnion reg, .null⟩]

/-- Running `model(**config)` for the `Input` model built by `init()`:
a non-mapping argument raises `TypeError` at the `**` unpacking, before any
validation; a mapping is validated against the model (closed schema, inherited
from `Recipe.Config`). -/
def validateInputModel (reg : Registry) (config : Value) : Except PyErr Value :=
  match config with
  | .obj _ => modelValidate (inputSpecs reg) true config
  | _ => .error (.typeError "argument after ** must be a mapping")

/-! ### The module-level entry points `expand` and `validate` -/

/-- What the dead tail of `expand` (lines 205-207, after the early `return`)
would compute if it were reachable: parse the configuration against the schema
built by `init()` and re-serialize it with defaults applied. -/
def expandUnreachable (reg : Registry) (config : Value) : Except PyErr Value :=
  validateInputModel reg config

/-- The `expand` entry point of `schema.py`.  Its first statement is
`return config`, so the normalization tail (`model = init()`;
`recipe = model(**config)`; `return recipe.model_dump()`) is dead code and the
function returns its argument unchanged. -/
def expand (config : Value) : Value :=
  config

/-- One item printed to standard output by `validate`: the success banner, the
machine-readable schema description (`model_json_schema`, whose JSON text is
abstracted), the normalized document dump (`model_dump`), or the failure banner
together with the structured validation errors. -/
inductive OutLine where
  | successMsg
  | schemaDump
  | dump (v : Value)
  | failedMsg (errs : List VErr)

/-- The `validate` entry point of `schema.py`: build the schema via `init()`,
parse the document; on success print the success banner and either the schema
description (when the `schema` flag is set) or the normalized dump, and return
`True`; on a `ValidationError` print the failure diagnostics and return
`False`; any other Python exception propagates to the caller. -/
def validate (reg : Registry) (config : Value) (schema : Bool) :
    Except PyErr (Bool × List OutLine) :=
  match validateInputModel reg config with
  | .ok r => .ok (true, [.successMsg, if schema then .schemaDump else .dump r])
  | .error (.validationError es) => .ok (false, [.failedMsg es])
  | .error e => .error e

/-! ### Observation helpers and concrete fixtures -/

/-- The boolean returned by `validate`, when it returns at all. -/
def valResult : Except PyErr (Bool × List OutLine) → Option Bool
  | .ok (b, _) => some b
  | .error _ => none

/-- The first normalized dump among the printed lines, if any. -/
def dumpOf : List OutLine → Option Value
  | [] => none
  | .dump v :: _ => some v
  | _ :: rest => dumpOf rest

/-- The normalized dump printed by a `validate` call, if any. -/
def printedDump : Except PyErr (Bool × List OutLine) → Option Value
  | .ok (_, lines) => dumpOf lines
  | .error _ => none

/-- Field access on an object value. -/
def getField (v : Value) (k : String) : Option Value :=
  match v with
  | .obj fs => alookup fs k
  | _ => none

/-- Access to a field of a sub-object of the printed dump. -/
def dumpField (r : Except PyErr (Bool × List OutLine)) (k1 k2 : String) :
    Option Value :=
  match printedDump r with
  | some d =>
    match getField d k1 with
    | some sub => getField sub k2
    | none => none
  | none => none

/-- The name of the single registered source of the concrete registry
fixture. -/
def marsName : String := "mars"

/-- A concrete registry snapshot with one registered source named `mars` whose
declared shape is `None` (so its field validates as `dict`), and no filters. -/
def reg0 : Registry := ⟨[("mars", none)], []⟩

/-- The minimal document of the round-trip property in the spec:
`{"dates": {"start": "2020-01-01", "end": "2020-01-02", "frequency": "1h"}}`. -/
def minimalDoc : Value :=
  .obj [("dates", .obj [("start", .str "2020-01-01"), ("end", .str "2020-01-02"),
                        ("frequency", .str "1h")])]

/-- The minimal document extended with an `input` entry for the registered
source `mars`. -/
def minimalDocWithInput : Value :=
  .obj [("dates", .obj [("start", .str "2020-01-01"), ("end", .str "2020-01-02"),
                        ("frequency", .str "1h")]),
        ("input", .obj [("mars", .obj [])])]

/-- A document whose step input object has zero top-level keys. -/
def emptyInputDoc : Value :=
  .obj [("dates", .obj [("start", .str "2020-01-01"), ("end", .str "2020-01-02"),
                        ("frequency", .str "1h")]),
        ("input", .obj [])]

/-! ### Helper lemmas about the embedding -/

/-- Lookup over an appended association list consults the left part first. -/
theorem alookup_append {α : Type} (l1 l2 : List (String × α)) (k : String) :
    alookup (l1 ++ l2) k =
      match alookup l1 k with
      | some v => some v
      | none => alookup l2 k := by
  induction l1 with
  | nil => simp [alookup]
  | cons kv rest ih =>
    by_cases h : kv.1 = k <;> simp [alookup, h, ih]

/-- A hit in the left part of an appended association list is a hit overall. -/
theorem alookup_append_some {α : Type} {l1 : List (String × α)}
    (l2 : List (String × α)) {k : String} {a : α} (h : alookup l1 k = some a) :
    alookup (l1 ++ l2) k = some a := by
  rw [alookup_append, h]

/-- A miss in the left part of an appended association list defers to the
right part. -/
theorem alookup_append_none {α : Type} {l1 : List (String × α)}
    (l2 : List (String × α)) {k : String} (h : alookup l1 k = none) :
    alookup (l1 ++ l2) k = alookup l2 k := by
  rw [alookup_append, h]

/-- `liftFieldErr` never re-raises a `ValidationError`: such errors are caught
and accumulated, so an `Except.error` outcome is some other Python exception. -/
theorem liftFieldErr_error_not_validation {k : String} {d : Value}
    {r : Except PyErr Value} {e : PyErr} (h : liftFieldErr k d r = .error e) :
    ∀ es, e ≠ .validationError es := by
  intro es hne
  subst hne
  rcases r with e' | y
  · cases e' <;> simp [liftFieldErr] at h
  · simp [liftFieldErr] at h

/-- `runField` never re-raises a `ValidationError` either. -/
theorem runField_error_not_validation {fs : List (String × Value)}
    {spec : FieldSpec} {e : PyErr} (h : runField fs spec = .error e) :
    ∀ es, e ≠ .validationError es := by
  unfold runField at h
  rcases hx : alookup fs spec.key with _ | x <;> rw [hx] at h
  · intro es hne
    subst hne
    by_cases hr : spec.required <;> simp [hr] at h
  · exact liftFieldErr_error_not_validation h

/-- `runFields` never re-raises a `ValidationError` either. -/
theorem runFields_error_not_validation {specs : List FieldSpec}
    {fs : List (String × Value)} {e : PyErr}
    (h : runFields specs fs = .error e) : ∀ es, e ≠ .validationError es := by
  induction specs with
  | nil => simp [runFields] at h
  | cons spec rest ih =>
    unfold runFields at h
    rcases hf : runField fs spec with e1 | ⟨es1, kv⟩ <;> rw [hf] at h
    · injection h with h1
      subst h1
      exact runField_error_not_validation hf
    · rcases hr : runFields rest fs with e2 | ⟨es2, kvs⟩ <;> rw [hr] at h
      · injection h with h1
        subst h1
        exact ih hr
      · simp at h

/-- Unfolding equation of `modelValidate` on a mapping. -/
theorem modelValidate_obj (specs : List FieldSpec) (b : Bool)
    (fs : List (String × Value)) :
    modelValidate specs b (.obj fs) =
      match runFields specs fs with
      | .error e => .error e
      | .ok (es, out) =>
        if (extraOf b specs fs ++ es).isEmpty then .ok (.obj out)
        else .error (.validationError (extraOf b specs fs ++ es)) := rfl

/-- `modelValidate` forwards a Python exception raised while running the
fields. -/
theorem modelValidate_obj_err {specs : List FieldSpec} {b : Bool}
    {fs : List (String × Value)} {e : PyErr}
    (hr : runFields specs fs = .error e) :
    modelValidate specs b (.obj fs) = .error e := by
  rw [modelValidate_obj, hr]

/-- `modelValidate` after an exception-free field run: succeed when no
validation error and no forbidden extra key was recorded, fail otherwise. -/
theorem modelValidate_obj_run {specs : List FieldSpec} {b : Bool}
    {fs : List (String × Value)} {es : List VErr} {out : List (String × Value)}
    (hr : runFields specs fs = .ok (es, out)) :
    modelValidate specs b (.obj fs) =
      if (extraOf b specs fs ++ es).isEmpty then .ok (.obj out)
      else .error (.validationError (extraOf b specs fs ++ es)) := by
  rw [modelValidate_obj, hr]

/-- A `ValidationError` produced by `modelValidate` always carries at least one
error line. -/
theorem modelValidate_validationError_ne_nil {specs : List FieldSpec}
    {b : Bool} {v : Value} {es : List VErr}
    (h : modelValidate specs b v = .error (.validationError es)) : es ≠ [] := by
  intro hnil
  subst hnil
  cases v
  case obj fs =>
    rcases hr : runFields specs fs with e | ⟨es2, out⟩
    · rw [modelValidate_obj_err hr] at h
      injection h with h1
      exact absurd h1 (runFields_error_not_validation hr [])
    · rw [modelValidate_obj_run hr] at h
      by_cases hemp : (extraOf b specs fs ++ es2).isEmpty = true
      · rw [if_pos hemp] at h
        simp at h
      · rw [if_neg hemp] at h
        injection h with h1
        injection h1 with h2
        exact hemp (by simp [h2])
  all_goals simp [modelValidate] at h

/-- A successful validation of a closed-schema model means every supplied key
names a declared field. -/
theorem modelValidate_ok_no_extra {specs : List FieldSpec}
    {fs : List (String × Value)} {r : Value} {k : String} {v : Value}
    (h : modelValidate specs true (.obj fs) = .ok r) (hm : (k, v) ∈ fs) :
    specs.any (fun s => s.key == k) = true := by
  rcases hr : runFields specs fs with e | ⟨es, out⟩
  · rw [modelValidate_obj_err hr] at h
    simp at h
  · rw [modelValidate_obj_run hr] at h
    by_cases hemp : (extraOf true specs fs ++ es).isEmpty = true
    · have h0 : extraOf true specs fs ++ es = [] := by
        simpa using hemp
      have hext : extraErrors specs fs = [] := by
        have := (List.append_eq_nil.mp h0).1
        simpa [extraOf] using this
      have hfil := List.map_eq_nil_iff.mp hext
      have hp := List.filter_eq_nil_iff.mp hfil _ hm
      simpa using hp
    · rw [if_neg hemp] at h
      simp at h

/-- A supplied key that no declared field names makes closed-schema validation
fail. -/
theorem modelValidate_extra_not_ok {specs : List FieldSpec}
    {fs : List (String × Value)} {k : String} {v : Value} {r : Value}
    (hm : (k, v) ∈ fs) (hk : specs.any (fun s => s.key == k) = false) :
    modelValidate specs true (.obj fs) ≠ .ok r := by
  intro h
  rw [modelValidate_ok_no_extra h hm] at hk
  cases hk

/-- Inversion for a field contribution with no recorded errors: the validator
either succeeded or returned an (impossible in practice) empty
`ValidationError`. -/
theorem liftFieldErr_ok_nil {k : String} {d : Value} {r : Except PyErr Value}
    {kv : String × Value} (h : liftFieldErr k d r = .ok ([], kv)) :
    (∃ y, r = .ok y) ∨ r = .error (.validationError []) := by
  rcases r with e | y
  · cases e with
    | validationError es =>
      right
      have hes : es = [] := by
        rcases es with _ | ⟨a, as⟩
        · rfl
        · simp [liftFieldErr] at h
      rw [hes]
    | indexError => simp [liftFieldErr] at h
    | attributeError => simp [liftFieldErr] at h
    | typeError msg => simp [liftFieldErr] at h
  · exact .inl ⟨y, rfl⟩

/-- When `runFields` succeeds with no accumulated errors, the validator of
every declared field whose key the document supplies either succeeded or
(vacuously) returned an empty `ValidationError`. -/
theorem runFields_ok_validator {specs : List FieldSpec}
    {fs : List (String × Value)} {out : List (String × Value)}
    {spec : FieldSpec} {x : Value}
    (h : runFields specs fs = .ok ([], out)) (hs : spec ∈ specs)
    (hx : alookup fs spec.key = some x) :
    (∃ y, spec.validator x = .ok y) ∨
      spec.validator x = .error (.validationError []) := by
  induction specs generalizing out with
  | nil => cases hs
  | cons s rest ih =>
    unfold runFields at h
    rcases hf : runField fs s with e1 | ⟨es1, kv⟩ <;> rw [hf] at h
    · cases h
    · rcases hr : runFields rest fs with e2 | ⟨es2, kvs⟩ <;> rw [hr] at h
      · cases h
      · injection h with h1
        injection h1 with hes hout
        have hes1 : es1 = [] := (List.append_eq_nil.mp hes).1
        have hes2 : es2 = [] := (List.append_eq_nil.mp hes).2
        rcases List.mem_cons.mp hs with hspec | hspec
        · subst hspec
          subst hes1
          unfold runField at hf
          rw [hx] at hf
          exact liftFieldErr_ok_nil hf
        · subst hes2
          exact ih hr hspec

/-- A successful `modelValidate` run has an error-free `runFields` run
underneath. -/
theorem modelValidate_ok_runFields {specs : List FieldSpec} {b : Bool}
    {fs : List (String × Value)} {r : Value}
    (h : modelValidate specs b (.obj fs) = .ok r) :
    ∃ out, runFields specs fs = .ok ([], out) := by
  rcases hr : runFields specs fs with e | ⟨es, out⟩
  · rw [modelValidate_obj_err hr] at h
    simp at h
  · rw [modelValidate_obj_run hr] at h
    by_cases hemp : (extraOf b specs fs ++ es).isEmpty = true
    · have h0 : extraOf b specs fs ++ es = [] := by simpa using hemp
      have hes : es = [] := (List.append_eq_nil.mp h0).2
      exact ⟨out, by rw [hes]⟩
    · rw [if_neg hemp] at h
      simp at h

/-- A successful `modelValidate` run means the validator of every declared
field whose key the document supplies succeeded (or returned an impossible
empty `ValidationError`). -/
theorem modelValidate_ok_field {specs : List FieldSpec} {b : Bool}
    {fs : List (String × Value)} {r : Value} {spec : FieldSpec} {x : Value}
    (h : modelValidate specs b (.obj fs) = .ok r) (hs : spec ∈ specs)
    (hx : alookup fs spec.key = some x) :
    (∃ y, spec.validator x = .ok y) ∨
      spec.validator x = .error (.validationError []) := by
  obtain ⟨out, hout⟩ := modelValidate_ok_runFields h
  exact runFields_ok_validator hout hs hx

/-- A declared field whose supplied value fails its validator (with a
necessarily nonempty `ValidationError`) makes the whole model validation
fail. -/
theorem field_fails_not_ok {specs : List FieldSpec} {b : Bool}
    {fs : List (String × Value)} {r : Value} {spec : FieldSpec} {x : Value}
    (hs : spec ∈ specs) (hx : alookup fs spec.key = some x)
    (hfail : ∀ y, spec.validator x ≠ .ok y)
    (hne : spec.validator x ≠ .error (.validationError [])) :
    modelValidate specs b (.obj fs) ≠ .ok r := by
  intro h
  rcases modelValidate_ok_field h hs hx with ⟨y, hy⟩ | hbad
  · exact hfail y hy
  · exact hne hbad

/-- With a `"values"` key present, the dates discriminator routes the mapping
to the `DateList` variant. -/
theorem datesUnion_values {ds : List (String × Value)}
    (h : hasKey ds "values" = true) :
    validateDatesUnion (.obj ds) = validateDateList (.obj ds) := by
  simp [validateDatesUnion, unionDispatch, dates_discriminator, h, alookup]

/-- Without a `"values"` key, the dates discriminator routes the mapping to the
`Interval` variant. -/
theorem datesUnion_interval {ds : List (String × Value)}
    (h : hasKey ds "values" = false) :
    validateDatesUnion (.obj ds) = validateInterval (.obj ds) := by
  simp [validateDatesUnion, unionDispatch, dates_discriminator, h, alookup]

/-- The `output` field spec is declared by the `Input` model. -/
theorem mem_inputSpecs_output (reg : Registry) :
    (⟨"output", false, validateOutput, outputDefault⟩ : FieldSpec)
      ∈ inputSpecs reg := by
  apply List.mem_append_left
  simp only [recipeSpecs]
  repeat first
    | exact List.mem_cons_self _ _
    | apply List.mem_cons_of_mem

/-- The `build` field spec is declared by the `Input` model. -/
theorem mem_inputSpecs_build (reg : Registry) :
    (⟨"build", false, validateBuild, buildDefault⟩ : FieldSpec)
      ∈ inputSpecs reg := by
  apply List.mem_append_left
  simp only [recipeSpecs]
  repeat first
    | exact List.mem_cons_self _ _
    | apply List.mem_cons_of_mem

/-- The `statistics` field spec is declared by the `Input` model. -/
theorem mem_inputSpecs_statistics (reg : Registry) :
    (⟨"statistics", false, validateStatistics, statisticsDefault⟩ : FieldSpec)
      ∈ inputSpecs reg := by
  apply List.mem_append_left
  simp only [recipeSpecs]
  repeat first
    | exact List.mem_cons_self _ _
    | apply List.mem_cons_of_mem

/-- The `dates` field spec is declared by the `Input` model. -/
theorem mem_inputSpecs_dates (reg : Registry) :
    (⟨"dates", true, validateDatesUnion, Value.null⟩ : FieldSpec)
      ∈ inputSpecs reg := by
  apply List.mem_append_left
  simp only [recipeSpecs]
  repeat first
    | exact List.mem_cons_self _ _
    | apply List.mem_cons_of_mem

/-- The `input` field spec is declared by the `Input` model. -/
theorem mem_inputSpecs_input (reg : Registry) :
    (⟨"input", true, inputUnion reg, Value.null⟩ : FieldSpec)
      ∈ inputSpecs reg :=
  List.mem_append_right _ (List.mem_singleton.mpr rfl)

/-! ### Claim theorems -/

/-- C1, counterexample: on the minimal document
`{"dates": {"start": "2020-01-01", "end": "2020-01-02", "frequency": "1h"}}`
with the `input` and `sources` fields omitted, `validate` returns `False`, not
`True` as the claim states: the `Input` model built by `init()` declares
`input` as a required field. -/
theorem C1_counterexample :
    valResult (validate reg0 minimalDoc false) = some false := rfl

/-- C1, amended: on the minimal document `validate` returns `False` (its only
validation error being the missing required `input` field); on the minimal
document extended with an `input` entry for a registered source name,
`validate` returns `True` and prints a normalized dump in which defaults are
filled in, in particular `output.dtype = "float32"` and
`build.group_by = "monthly"`. -/
theorem C1_theorem :
    validate reg0 minimalDoc false
      = .ok (false, [.failedMsg [⟨["input"], "missing"⟩]]) ∧
    valResult (validate reg0 minimalDocWithInput false) = some true ∧
    dumpField (validate reg0 minimalDocWithInput false) "output" "dtype"
      = some (.str "float32") ∧
    dumpField (validate reg0 minimalDocWithInput false) "build" "group_by"
      = some (.str "monthly") :=
  ⟨rfl, rfl, rfl, rfl⟩

/-- C2, counterexample: on a document whose step input object has zero
top-level keys, `validate` does not return a boolean: the
`_input_discriminator` subscript `list(input.keys())[0]` raises `IndexError`,
which is not a `ValidationError` and propagates to the caller. -/
theorem C2_counterexample :
    validate reg0 emptyInputDoc false = .error .indexError := rfl

/-- C2, amended: every pydantic `ValidationError` arising while validating a
document is caught inside `validate` and converted into the return value
`False` plus printed diagnostics; but any non-`ValidationError` Python
exception raised during validation — in particular the `IndexError` coming
from a step input object with zero top-level keys — propagates to the
caller. -/
theorem C2_theorem (reg : Registry) (config : Value) (s : Bool) :
    (∀ es, validateInputModel reg config = .error (.validationError es) →
      validate reg config s = .ok (false, [.failedMsg es])) ∧
    (∀ e, validateInputModel reg config = .error e →
      (∀ es, e ≠ .validationError es) →
      validate reg config s = .error e) := by
  constructor
  · intro es h
    unfold validate
    rw [h]
  · intro e h hne
    unfold validate
    rw [h]
    cases e with
    | validationError es => exact absurd rfl (hne es)
    | indexError => rfl
    | attributeError => rfl
    | typeError msg => rfl

/-- C2, witness: the caught branch at the minimal document (missing required
`input` field) and the uncaught branch at the empty step input object. -/
theorem C2_witness :
    validate reg0 minimalDoc false
      = .ok (false, [.failedMsg [⟨["input"], "missing"⟩]]) ∧
    validate reg0 emptyInputDoc false = .error .indexError :=
  ⟨(C2_theorem reg0 minimalDoc false).1 [⟨["input"], "missing"⟩] rfl,
   (C2_theorem reg0 emptyInputDoc false).2 .indexError rfl
     (fun _ h => nomatch h)⟩

/-- C3: for every `dates` mapping containing the key `"values"`, the dates
discriminator selects the `DateList` variant, regardless of the other keys;
for every `dates` mapping lacking `"values"`, the `Interval` variant is
selected. -/
theorem C3_theorem (fs : List (String × Value)) :
    (hasKey fs "values" = true →
      validateDatesUnion (.obj fs) = validateDateList (.obj fs)) ∧
    (hasKey fs "values" = false →
      validateDatesUnion (.obj fs) = validateInterval (.obj fs)) :=
  ⟨datesUnion_values, datesUnion_interval⟩

/-- C3, witness: a mapping with a `"values"` key (and another key) routes to
`DateList`; a mapping without one routes to `Interval`. -/
theorem C3_witness :
    validateDatesUnion (.obj [("values", .list []), ("missing", .list [])])
      = validateDateList (.obj [("values", .list []), ("missing", .list [])]) ∧
    validateDatesUnion (.obj [("start", .str "2020-01-01")])
      = validateInterval (.obj [("start", .str "2020-01-01")]) :=
  ⟨(C3_theorem _).1 rfl, (C3_theorem _).2 rfl⟩

/-- C6: a `dates` mapping containing both `"values"` and `"start"` is resolved
by the dates discriminator to the `DateList` variant: the presence of the
`"values"` key wins unconditionally over the Interval-specific keys. -/
theorem C6_theorem (fs : List (String × Value))
    (hv : hasKey fs "values" = true) (_hs : hasKey fs "start" = true) :
    validateDatesUnion (.obj fs) = validateDateList (.obj fs) :=
  datesUnion_values hv

/-- C6, witness: the concrete mapping with both `"values"` and `"start"`. -/
theorem C6_witness :
    validateDatesUnion
        (.obj [("values", .list []), ("start", .str "2020-01-01")])
      = validateDateList
          (.obj [("values", .list []), ("start", .str "2020-01-01")]) :=
  C6_theorem _ rfl rfl

/-- C7: `expand` returns its argument unchanged for every configuration
document — its first statement is `return config`, so the normalization tail
is unreachable dead code. -/
theorem C7_theorem (config : Value) : expand config = config := rfl

/-- C9: for every step input object with two or more top-level keys, the input
discriminator does not fail and selects the tag named by the first key in
insertion order, ignoring the remaining keys for the purpose of variant
selection. -/
theorem C9_theorem (k : String) (v : Value) (rest : List (String × Value))
    (_hrest : rest ≠ []) :
    input_discriminator (.obj ((k, v) :: rest)) = .ok k ∧
    (∀ reg f, alookup (inputVariants reg) k = some f →
      inputUnion reg (.obj ((k, v) :: rest)) = f (.obj ((k, v) :: rest))) := by
  constructor
  · rfl
  · intro reg f hl
    simp only [inputUnion, unionDispatch, input_discriminator]
    rw [hl]

/-- C4: an unknown field at the top level of the `Recipe`, or inside the
`Output`, `Build`, `Statistics` or `Dates` sections, makes validation fail
(closed schemas); unknown fields inside the `common` section are always
accepted (open schema). -/
theorem C4_theorem (reg : Registry) :
    (∀ fs k v r, (k, v) ∈ fs →
      (inputSpecs reg).any (fun s => s.key == k) = false →
      validateInputModel reg (.obj fs) ≠ .ok r) ∧
    (∀ fs os k v r, alookup fs "output" = some (.obj os) → (k, v) ∈ os →
      OutputSpecs.any (fun s => s.key == k) = false →
      validateInputModel reg (.obj fs) ≠ .ok r) ∧
    (∀ fs bs k v r, alookup fs "build" = some (.obj bs) → (k, v) ∈ bs →
      BuildSpecs.any (fun s => s.key == k) = false →
      validateInputModel reg (.obj fs) ≠ .ok r) ∧
    (∀ fs ss k v r, alookup fs "statistics" = some (.obj ss) → (k, v) ∈ ss →
      StatisticsSpecs.any (fun s => s.key == k) = false →
      validateInputModel reg (.obj fs) ≠ .ok r) ∧
    (∀ fs ds k v r, alookup fs "dates" = some (.obj ds) → (k, v) ∈ ds →
      IntervalSpecs.any (fun s => s.key == k) = false →
      DateListSpecs.any (fun s => s.key == k) = false →
      validateInputModel reg (.obj fs) ≠ .ok r) ∧
    (∀ gs, validateCommon (.obj gs) = .ok (.obj [])) := by
  refine ⟨?_, ?_, ?_, ?_, ?_, fun gs => rfl⟩
  · intro fs k v r hm hk
    exact modelValidate_extra_not_ok hm hk
  · intro fs os k v r hd hm hk
    refine field_fails_not_ok (mem_inputSpecs_output reg) hd ?_ ?_
    · intro y hy
      replace hy : validateOutput (.obj os) = .ok y := hy
      exact modelValidate_extra_not_ok hm hk hy
    · intro hbad
      replace hbad : validateOutput (.obj os)
          = .error (.validationError []) := hbad
      exact modelValidate_validationError_ne_nil hbad rfl
  · intro fs bs k v r hd hm hk
    refine field_fails_not_ok (mem_inputSpecs_build reg) hd ?_ ?_
    · intro y hy
      replace hy : validateBuild (.obj bs) = .ok y := hy
      exact modelValidate_extra_not_ok hm hk hy
    · intro hbad
      replace hbad : validateBuild (.obj bs)
          = .error (.validationError []) := hbad
      exact modelValidate_validationError_ne_nil hbad rfl
  · intro fs ss k v r hd hm hk
    refine field_fails_not_ok (mem_inputSpecs_statistics reg) hd ?_ ?_
    · intro y hy
      replace hy : validateStatistics (.obj ss) = .ok y := hy
      exact modelValidate_extra_not_ok hm hk hy
    · intro hbad
      replace hbad : validateStatistics (.obj ss)
          = .error (.validationError []) := hbad
      exact modelValidate_validationError_ne_nil hbad rfl
  · intro fs ds k v r hd hm hkI hkD
    refine field_fails_not_ok (mem_inputSpecs_dates reg) hd ?_ ?_
    · intro y hy
      replace hy : validateDatesUnion (.obj ds) = .ok y := hy
      cases hhk : hasKey ds "values" with
      | true =>
        rw [datesUnion_values hhk] at hy
        exact modelValidate_extra_not_ok hm hkD hy
      | false =>
        rw [datesUnion_interval hhk] at hy
        exact modelValidate_extra_not_ok hm hkI hy
    · intro hbad
      replace hbad : validateDatesUnion (.obj ds)
          = .error (.validationError []) := hbad
      cases hhk : hasKey ds "values" with
      | true =>
        rw [datesUnion_values hhk] at hbad
        exact modelValidate_validationError_ne_nil hbad rfl
      | false =>
        rw [datesUnion_interval hhk] at hbad
        exact modelValidate_validationError_ne_nil hbad rfl

/-- C4, witness: an unknown top-level key, an unknown key inside `output`, and
an unknown key inside `common`, each at a concrete document. -/
theorem C4_witness :
    validateInputModel reg0 (.obj [("bogus", Value.null)]) ≠ .ok Value.null ∧
    validateInputModel reg0
        (.obj [("dates", .obj []), ("output", .obj [("weird", Value.null)]),
               ("input", .obj [("mars", .obj [])])]) ≠ .ok Value.null ∧
    validateCommon (.obj [("anything", Value.null)]) = .ok (.obj []) :=
  ⟨(C4_theorem reg0).1 _ "bogus" _ _ (List.mem_cons_self _ _) rfl,
   (C4_theorem reg0).2.1 _ _ "weird" _ _ rfl (List.mem_cons_self _ _) rfl,
   (C4_theorem reg0).2.2.2.2.2 [("anything", Value.null)]⟩

/-- C5: a step input object with exactly one top-level key matching a
registered source or filter name is routed to the variant generated for that
name; one whose key matches no registered name and no combinator tag fails
with a `union_tag_invalid` discriminator error, and a document carrying such a
step as its `input` never validates. -/
theorem C5_theorem (reg : Registry) (k : String) (v : Value) :
    (∀ f, alookup (stepVariants reg) k = some f →
      inputUnion reg (.obj [(k, v)]) = f (.obj [(k, v)])) ∧
    (alookup (stepVariants reg) k = none →
      k ≠ "pipe" → k ≠ "dates" → k ≠ "concat" → k ≠ "join" →
      inputUnion reg (.obj [(k, v)])
        = .error (.validationError [⟨[], "union_tag_invalid"⟩]) ∧
      ∀ fs r, alookup fs "input" = some (.obj [(k, v)]) →
        validateInputModel reg (.obj fs) ≠ .ok r) := by
  constructor
  · intro f hf
    have h1 : alookup (stepsAndPipeVariants reg) k = some f :=
      alookup_append_some _ hf
    have h2 : alookup (stepsAndDatesVariants reg) k = some f :=
      alookup_append_some _ h1
    have h3 : alookup (inputVariants reg) k = some f :=
      alookup_append_some _ h2
    simp only [inputUnion, unionDispatch, input_discriminator]
    rw [h3]
  · intro hnone hp hd hc hj
    have h1 : alookup (stepsAndPipeVariants reg) k = none := by
      show alookup (stepVariants reg ++ [("pipe", validatePipe reg)]) k = none
      rw [alookup_append_none _ hnone]
      simp [alookup, Ne.symm hp]
    have h2 : alookup (stepsAndDatesVariants reg) k = none := by
      show alookup (stepsAndPipeVariants reg
        ++ [("dates", validateDatesComb reg)]) k = none
      rw [alookup_append_none _ h1]
      simp [alookup, Ne.symm hd]
    have h3 : alookup (inputVariants reg) k = none := by
      show alookup (stepsAndDatesVariants reg
        ++ [("concat", validateConcat reg), ("join", validateJoin reg)]) k = none
      rw [alookup_append_none _ h2]
      simp [alookup, Ne.symm hc, Ne.symm hj]
    have herr : inputUnion reg (.obj [(k, v)])
        = .error (.validationError [⟨[], "union_tag_invalid"⟩]) := by
      simp only [inputUnion, unionDispatch, input_discriminator]
      rw [h3]
    refine ⟨herr, ?_⟩
    intro fs r hin
    refine field_fails_not_ok (mem_inputSpecs_input reg) hin ?_ ?_
    · intro y hy
      replace hy : inputUnion reg (.obj [(k, v)]) = .ok y := hy
      rw [herr] at hy
      cases hy
    · intro hbad
      replace hbad : inputUnion reg (.obj [(k, v)])
          = .error (.validationError []) := hbad
      rw [herr] at hbad
      injection hbad with hb1
      injection hb1 with hb2
      cases hb2

/-- C5, witness: the registered key `mars` selects the generated `mars`
variant; the unregistered key `zeus` yields the union-tag error. -/
theorem C5_witness :
    inputUnion reg0 (.obj [("mars", Value.obj [])])
      = modelValidate (stepSpecs "mars" none) false
          (.obj [("mars", Value.obj [])]) ∧
    inputUnion reg0 (.obj [("zeus", Value.obj [])])
      = .error (.validationError [⟨[], "union_tag_invalid"⟩]) :=
  ⟨(C5_theorem reg0 "mars" (Value.obj [])).1 _ rfl,
   ((C5_theorem reg0 "zeus" (Value.obj [])).2 rfl (by decide) (by decide)
      (by decide) (by decide)).1⟩

/-- C8: for every document that validates successfully,
`validate(config, schema=True)` returns `True` and prints the schema
description without the normalized dump, while `validate(config, schema=False)`
prints the normalized dump instead. -/
theorem C8_theorem (reg : Registry) (config : Value) (r : Value)
    (h : validateInputModel reg config = .ok r) :
    validate reg config true = .ok (true, [.successMsg, .schemaDump]) ∧
    (∀ d, OutLine.dump d ∉ [OutLine.successMsg, OutLine.schemaDump]) ∧
    validate reg config false = .ok (true, [.successMsg, .dump r]) := by
  refine ⟨?_, ?_, ?_⟩
  · unfold validate
    rw [h]
    exact rfl
  · intro d hd
    simp at hd
  · unfold validate
    rw [h]
    exact rfl

/-- C8, witness: the successfully validating fixture in schema mode. -/
theorem C8_witness :
    validate reg0 minimalDocWithInput true
      = .ok (true, [.successMsg, .schemaDump]) :=
  (C8_theorem reg0 minimalDocWithInput _ rfl).1

/-- C10: a document whose `dates` mapping contains `"values"` together with
any key outside `values`/`missing`/`group_by` (such as `"start"`) never
validates: the discriminator routes the mapping to `DateList`, whose closed
schema forbids the extra key. -/
theorem C10_theorem (reg : Registry) (fs ds : List (String × Value))
    (k : String) (v : Value) (r : Value)
    (hd : alookup fs "dates" = some (.obj ds))
    (hv : hasKey ds "values" = true)
    (hm : (k, v) ∈ ds)
    (hk1 : k ≠ "values") (hk2 : k ≠ "missing") (hk3 : k ≠ "group_by") :
    validateInputModel reg (.obj fs) ≠ .ok r := by
  have hany : DateListSpecs.any (fun s => s.key == k) = false := by
    simp [DateListSpecs, DatesBaseSpecs, Ne.symm hk1, Ne.symm hk2, Ne.symm hk3]
  refine field_fails_not_ok (mem_inputSpecs_dates reg) hd ?_ ?_
  · intro y hy
    replace hy : validateDatesUnion (.obj ds) = .ok y := hy
    rw [datesUnion_values hv] at hy
    exact modelValidate_extra_not_ok hm hany hy
  · intro hbad
    replace hbad : validateDatesUnion (.obj ds)
        = .error (.validationError []) := hbad
    rw [datesUnion_values hv] at hbad
    exact modelValidate_validationError_ne_nil hbad rfl

/-- C10, witness: a concrete document whose `dates` mapping holds both
`"values"` and `"start"` fails validation. -/
theorem C10_witness :
    validateInputModel reg0
        (.obj [("dates", .obj [("values", .list []),
                               ("start", .str "2020-01-01")]),
               ("input", .obj [("mars", .obj [])])]) ≠ .ok Value.null :=
  C10_theorem reg0 _ _ "start" (Value.str "2020-01-01") Value.null rfl rfl
    (List.mem_cons_of_mem _ (List.mem_cons_self _ _))
    (by decide) (by decide) (by decide)

/-- C9, witness: a two-key input object whose first key is the registered
source `mars` is routed to the `mars` variant. -/
theorem C9_witness :
    input_discriminator (.obj [("mars", Value.obj []), ("extra", Value.null)])
      = .ok "mars" ∧
    inputUnion reg0 (.obj [("mars", Value.obj []), ("extra", Value.null)])
      = modelValidate (stepSpecs "mars" none) false
          (.obj [("mars", Value.obj []), ("extra", Value.null)]) :=
  ⟨(C9_theorem marsName (Value.obj []) [("extra", Value.null)]
      (List.cons_ne_nil _ _)).1,
   (C9_theorem marsName (Value.obj []) [("extra", Value.null)]
      (List.cons_ne_nil _ _)).2 reg0 _ rfl⟩

end AnemoiSchema
